import Mathlib

/-!
Verification of the RNN-comparison notebook (`RNNs.ipynb`).

The notebook defines a single parameterized model class `MyRNN` dispatching
on a string tag over four recurrent architectures, loads pretrained embedding
weights and zeroes two reserved rows, trains each variant with Adam, and
evaluates a thresholded accuracy. The definitions below embed the
repository's own orchestration code; numeric behavior of the third-party
library (autograd, the Adam optimizer, the RNG) is modelled where a claim
depends on it, as marked in the doc comments.
-/

namespace RNNs

/-! ## Hyperparameters (notebook cell defining the constants) -/

def embeddingSize : ℕ := 100
def hiddenSize : ℕ := 10
def dropoutRate : ℚ := 1/2
def numEpochs : ℕ := 5
def vocabSize : ℕ := 20002
def pad : ℕ := 1
def unk : ℕ := 0

/-! ## `MyRNN.__init__`: the variant builder -/

/-- Kind of recurrent cell chosen by the constructor: `nn.RNN` (plain
recurrence), `nn.GRU` (gated reset/update) or `nn.LSTM` (gated
forget/input/output). -/
inductive CellKind
  | rnn
  | gru
  | lstm
  deriving DecidableEq

/-- The configuration `MyRNN.__init__` produces: the flags it stores on
`self`, the cell kind and the directionality of the recurrent layer, and the
shapes of the embedding and linear layers. -/
structure ModelConfig where
  name : String
  isLSTM : Bool
  bidir : Bool
  cell : CellKind
  rnnBidirectional : Bool
  embedNum : ℕ
  embedDim : ℕ
  paddingIdx : ℕ
  denseIn : ℕ
  denseOut : ℕ
  deriving DecidableEq

/-- Embedding of `MyRNN.__init__(self, model)`:
`self.LSTM = (model == 'LSTM' or model == 'BiLSTM')`,
`self.bidir = (model == 'BiLSTM')`,
`self.embed = nn.Embedding(vocabSize, embeddingSize, padding_idx = pad)`,
then the `if/elif/else` dispatch — any tag other than `"RNN"` and `"GRU"`
falls into the `else` branch, which builds `nn.LSTM(..., bidirectional =
self.bidir)` — and finally
`self.dense = nn.Linear(hiddenSize * (2 if self.bidir else 1), 1)`.
The constructor is total: no tag is rejected. -/
def MyRNN.init (model : String) : ModelConfig :=
  let isLSTM : Bool := model == "LSTM" || model == "BiLSTM"
  let bidir : Bool := model == "BiLSTM"
  let cell : CellKind :=
    if model == "RNN" then CellKind.rnn
    else if model == "GRU" then CellKind.gru
    else CellKind.lstm
  -- `nn.RNN`/`nn.GRU` are built without a `bidirectional` argument
  -- (so unidirectional); the `else` branch passes `bidirectional = self.bidir`.
  let rnnBidirectional : Bool :=
    if model == "RNN" then false
    else if model == "GRU" then false
    else bidir
  { name := model
    isLSTM := isLSTM
    bidir := bidir
    cell := cell
    rnnBidirectional := rnnBidirectional
    embedNum := vocabSize
    embedDim := embeddingSize
    paddingIdx := pad
    denseIn := hiddenSize * (if bidir then 2 else 1)
    denseOut := 1 }

/-! ## `batchAccuracy` and the evaluation metric -/

/-- `roundedPreds = (preds >= 0)`, elementwise. -/
def roundedPred (p : ℚ) : Bool := 0 ≤ p

/-- One element of `(roundedPreds == targets)`: the boolean prediction is
promoted to `1.0`/`0.0` and compared with the float target. -/
def predMatch (p t : ℚ) : Bool := decide ((if roundedPred p then (1 : ℚ) else 0) = t)

/-- Embedding of `batchAccuracy(preds, targets)`:
`(roundedPreds == targets).sum().item() / len(preds)`. -/
def batchAccuracy (preds targets : List ℚ) : ℚ :=
  (((preds.zip targets).countP fun pt => predMatch pt.1 pt.2 : ℕ) : ℚ) / (preds.length : ℚ)

/-- Embedding of the evaluation loop's reported metric: per batch
`accuracy += batchAccuracy(predictions, batch[1])`, then
`accuracy / len(testIterator) * 100` is printed. Each batch is given as its
prediction and target lists. -/
def evalAccuracyPercent (batches : List (List ℚ × List ℚ)) : ℚ :=
  (batches.foldl (fun a b => a + batchAccuracy b.1 b.2) 0) / (batches.length : ℚ) * 100

/-! ## Model parameters, batches, and the evaluation loop state -/

/-- The parameters a `MyRNN` instance owns: the embedding table, the
recurrent layer's weights, and the linear output layer. -/
structure ModelParams where
  embedWeight : List (List ℚ)
  rnnWeights : List ℚ
  denseWeight : List ℚ
  denseBias : ℚ
  deriving DecidableEq

/-- A batch as yielded by the serialized iterators: `batch[0] = (text,
textLen)` (padded token-index sequences with per-example true lengths) and
`batch[1]` the float labels. -/
structure Batch where
  text : List (List ℕ)
  textLen : List ℕ
  label : List ℚ
  deriving DecidableEq

/-- One iteration of the evaluation-loop body (inside `torch.no_grad()`,
after `model.eval()`): predictions are computed by reading the model and the
batch accuracy is accumulated; the model component of the state is what the
body hands to the next iteration. The numeric forward pass is the
deterministic function `fwd` of the parameters and the batch. -/
def evalStep (fwd : ModelParams → Batch → List ℚ) (state : ModelParams × ℚ)
    (batch : Batch) : ModelParams × ℚ :=
  let predictions := fwd state.1 batch
  (state.1, state.2 + batchAccuracy predictions batch.label)

/-- Embedding of one model's pass over `testIterator`: fold the evaluation
body over the batch stream starting from the model and accuracy `0.0`. -/
def evalLoop (fwd : ModelParams → Batch → List ℚ) (m : ModelParams)
    (batches : List Batch) : ModelParams × ℚ :=
  batches.foldl (evalStep fwd) (m, 0)

/-! ## Shape semantics of `MyRNN.forward` -/

/-- Shape of applying `nn.Linear(inW, outW)` to a 2-D input: defined exactly
when the input's feature width matches the layer's input width. -/
def linearShape (inW outW : ℕ) : List ℕ → Option (List ℕ)
  | [b, w] => if w = inW then some [b, outW] else none
  | _ => none

/-- Shape semantics of `MyRNN.forward(text, textLengths)`: the embedded and
dropout-masked input is `(seqLen, batch, embedDim)`; the recurrent layer's
final hidden stack is `(numLayers * numDirections, batch, hiddenSize)` with
one layer; the classifier input is `torch.cat((hidden[-2], hidden[-1]), dim
= 1)` of shape `(batch, 2 * hiddenSize)` when `self.bidir`, else
`hidden[0]` of shape `(batch, hiddenSize)`; `self.dense` then requires its
input width to match. -/
def MyRNN.forwardShape (cfg : ModelConfig) (seqLen batch : ℕ) : Option (List ℕ) :=
  let embedded := [seqLen, batch, cfg.embedDim]
  let numDirections := if cfg.rnnBidirectional then 2 else 1
  let hidden := [numDirections, batch, hiddenSize]
  let selected :=
    if cfg.bidir then [hidden.getD 1 0, 2 * hiddenSize]
    else [hidden.getD 1 0, hiddenSize]
  let _ := embedded
  linearShape cfg.denseIn cfg.denseOut selected

/-! ## Hidden-state selection in `MyRNN.forward` -/

/-- Python negative indexing `hs[-k]` on the stack of final hidden states
(one entry per (layer, direction) pair, each a batch of feature vectors). -/
def negIndex (hs : List (List (List ℚ))) (k : ℕ) : List (List ℚ) :=
  hs.getD (hs.length - k) []

/-- Embedding of the hidden-state selection in `MyRNN.forward`:
`torch.cat((hidden[-2,:,:], hidden[-1,:,:]), dim = 1)` when bidirectional
(`cat` along `dim = 1` appends the feature vectors example-wise), and
`hidden[0]` otherwise. -/
def hiddenSelect (bidir : Bool) (hs : List (List (List ℚ))) : List (List ℚ) :=
  if bidir then List.zipWith (· ++ ·) (negIndex hs 2) (negIndex hs 1)
  else hs.getD 0 []

/-! ## Pretrained-weight loading and the reserved rows -/

/-- Embedding of the weight-loading cell:
`model.embed.weight.data.copy_(reviewVocabVectors)` followed by
`model.embed.weight.data[unk] = torch.zeros(embeddingSize)` and
`model.embed.weight.data[pad] = torch.zeros(embeddingSize)`. -/
def loadEmbedWeights (reviewVocabVectors : List (List ℚ)) : List (List ℚ) :=
  (reviewVocabVectors.set unk (List.replicate embeddingSize 0)).set pad
    (List.replicate embeddingSize 0)

/-- Modelled from the spec: the gradient that the embedding layer (with
`padding_idx = pad`) reports for row `i` — the sum of the upstream gradients
at the input positions holding token `i`, except that the padding row's
gradient is fixed at zero. One feature coordinate is shown; the other
coordinates follow the same rule. The autograd engine is third-party code
not present in src/. -/
def embedRowGrad (paddingIdx : ℕ) (tokens : List ℕ) (upstream : List ℚ) (i : ℕ) : ℚ :=
  if i = paddingIdx then 0
  else ((tokens.zip upstream).filter fun tu => tu.1 == i).foldl (fun a tu => a + tu.2) 0

/-! ## The adaptive-moment optimizer -/

/-- Modelled from the spec: per-coordinate state of the "fresh
adaptive-moment optimizer" (`torch.optim.Adam`, third-party code not present
in src/): first and second moment estimates and the step count. -/
structure AdamState where
  m : ℚ
  v : ℚ
  t : ℕ
  deriving DecidableEq

def adamLR : ℚ := 1/1000
def adamBeta1 : ℚ := 9/10
def adamBeta2 : ℚ := 999/1000
def adamEps : ℚ := 1/100000000

/-- Modelled from the spec: one per-coordinate step of the adaptive-moment
optimizer at its default hyperparameters, parameterized by the numeric
backend's square-root routine `sqrt`. Returns the new optimizer state and
the new parameter value. -/
def adamStep (sqrt : ℚ → ℚ) (s : AdamState) (θ g : ℚ) : AdamState × ℚ :=
  let t := s.t + 1
  let m := adamBeta1 * s.m + (1 - adamBeta1) * g
  let v := adamBeta2 * s.v + (1 - adamBeta2) * g ^ 2
  let mhat := m / (1 - adamBeta1 ^ t)
  let vhat := v / (1 - adamBeta2 ^ t)
  (⟨m, v, t⟩, θ - adamLR * mhat / (sqrt vhat + adamEps))

/-- Run the per-coordinate optimizer from a fresh state (zero moments, step
count zero, as `torch.optim.Adam` initializes) over a sequence of gradients
for that coordinate, one per `optimizer.step()` of the training loop. -/
def adamRun (sqrt : ℚ → ℚ) (θ0 : ℚ) (grads : List ℚ) : ℚ :=
  (grads.foldl (fun sθ g => adamStep sqrt sθ.1 sθ.2 g) (⟨0, 0, 0⟩, θ0)).2

/-! ## RNG seeding and the training loop -/

/-- Modelled from the spec: the library's global RNG state, written by
`torch.manual_seed` and consumed by the stochastic layers (dropout). -/
structure RNGState where
  seed : ℕ
  counter : ℕ
  deriving DecidableEq

/-- Modelled from the spec: `torch.manual_seed(n)` replaces the global RNG
state, whatever it was, with the fixed state determined by `n`. -/
def manualSeed (n : ℕ) (_g : RNGState) : RNGState := ⟨n, 0⟩

/-- Embedding of one variant's training in the training cell: the loop body
first executes `torch.manual_seed(0)` and constructs a fresh optimizer, then
folds the training batch stream, threading the RNG (consumed by dropout),
the model parameters (mutated by the optimizer step) and the loss
accumulator through the deterministic per-batch transition `step`; the
epoch's reported value is the accumulated loss divided by the number of
batches. -/
def trainVariant (step : RNGState × ModelParams × ℚ → Batch → RNGState × ModelParams × ℚ)
    (g0 : RNGState) (m0 : ModelParams) (batches : List Batch) : ℚ :=
  let g := manualSeed 0 g0
  let final := batches.foldl step (g, m0, 0)
  final.2.2 / (batches.length : ℚ)

/-! ## Claims C1, C3, C10 -/

/-- C1: error handling of the variant tag. The claim requires construction
to fail fast on any tag outside {RNN, GRU, LSTM, BiLSTM}; the code instead
lets every unrecognized tag fall through the `else` branch. Evaluated at the
failing input `"LSTMM"` (a typo tag): construction succeeds and silently
yields a unidirectional LSTM, exactly the silent default the claim rules
out. -/
theorem c1_unrecognized_tag_silently_builds_lstm :
    (MyRNN.init "LSTMM").cell = CellKind.lstm ∧
    (MyRNN.init "LSTMM").rnnBidirectional = false ∧
    (MyRNN.init "LSTMM").denseIn = hiddenSize := by
  decide

/-- C3: for each of the four variant tags, construction yields the cell kind
named by the tag, bidirectionality exactly for BiLSTM, and a linear layer
whose input width is the hidden width, doubled exactly for BiLSTM. -/
theorem c3_variant_builder_correct :
    ((MyRNN.init "RNN").cell = CellKind.rnn ∧
      (MyRNN.init "RNN").rnnBidirectional = false ∧
      (MyRNN.init "RNN").denseIn = hiddenSize) ∧
    ((MyRNN.init "GRU").cell = CellKind.gru ∧
      (MyRNN.init "GRU").rnnBidirectional = false ∧
      (MyRNN.init "GRU").denseIn = hiddenSize) ∧
    ((MyRNN.init "LSTM").cell = CellKind.lstm ∧
      (MyRNN.init "LSTM").rnnBidirectional = false ∧
      (MyRNN.init "LSTM").denseIn = hiddenSize) ∧
    ((MyRNN.init "BiLSTM").cell = CellKind.lstm ∧
      (MyRNN.init "BiLSTM").rnnBidirectional = true ∧
      (MyRNN.init "BiLSTM").denseIn = 2 * hiddenSize) := by
  decide

/-- C10: in `batchAccuracy` the threshold comparison is `>= 0`, so a logit
exactly equal to zero is counted as a positive prediction: it agrees with
label `1` and disagrees with label `0`, and a one-element batch with logit
zero scores accuracy `1` against label `1` and `0` against label `0`. -/
theorem c10_zero_logit_counts_positive :
    roundedPred 0 = true ∧
    predMatch 0 1 = true ∧
    predMatch 0 0 = false ∧
    batchAccuracy [0] [1] = 1 ∧
    batchAccuracy [0] [0] = 0 := by
  constructor
  · decide
  constructor
  · decide
  constructor
  · decide
  constructor
  · simp [batchAccuracy]
    decide
  · simp [batchAccuracy]
    decide

/-! ## Accuracy bounds (C5) -/

theorem batchAccuracy_nonneg (preds targets : List ℚ) : 0 ≤ batchAccuracy preds targets := by
  unfold batchAccuracy
  positivity

theorem batchAccuracy_le_one (preds targets : List ℚ) : batchAccuracy preds targets ≤ 1 := by
  unfold batchAccuracy
  rcases preds with _ | ⟨p, ps⟩
  · simp
  · have hl : (0 : ℚ) < ((p :: ps).length : ℚ) := by
      have h0 : 0 < (p :: ps).length := Nat.succ_pos _
      exact_mod_cast h0
    rw [div_le_one hl]
    have h : (((p :: ps).zip targets).countP fun pt => predMatch pt.1 pt.2) ≤
        (p :: ps).length := by
      calc (((p :: ps).zip targets).countP fun pt => predMatch pt.1 pt.2)
          ≤ ((p :: ps).zip targets).length := List.countP_le_length _
        _ ≤ (p :: ps).length := by
            rw [List.length_zip]
            exact min_le_left _ _
    exact_mod_cast h

theorem evalSum_bounds (batches : List (List ℚ × List ℚ)) :
    ∀ a : ℚ, a ≤ batches.foldl (fun s b => s + batchAccuracy b.1 b.2) a ∧
      batches.foldl (fun s b => s + batchAccuracy b.1 b.2) a ≤ a + batches.length := by
  induction batches with
  | nil => intro a; simp
  | cons b bs ih =>
    intro a
    have h1 := batchAccuracy_nonneg b.1 b.2
    have h2 := batchAccuracy_le_one b.1 b.2
    have h3 := ih (a + batchAccuracy b.1 b.2)
    constructor
    · calc a ≤ a + batchAccuracy b.1 b.2 := by linarith
        _ ≤ _ := h3.1
    · simp only [List.foldl_cons, List.length_cons]
      push_cast
      linarith [h3.2]

/-- C5: per-batch accuracy lies in [0, 1], and the reported mean accuracy
across a non-empty batch stream lies in [0, 100] as a percentage. -/
theorem c5_accuracy_bounds (batches : List (List ℚ × List ℚ)) (hne : batches ≠ []) :
    (∀ b ∈ batches, 0 ≤ batchAccuracy b.1 b.2 ∧ batchAccuracy b.1 b.2 ≤ 1) ∧
    0 ≤ evalAccuracyPercent batches ∧ evalAccuracyPercent batches ≤ 100 := by
  have hlen : (0 : ℚ) < (batches.length : ℚ) := by
    exact_mod_cast List.length_pos.mpr hne
  have hsum := evalSum_bounds batches 0
  refine ⟨fun b _ => ⟨batchAccuracy_nonneg _ _, batchAccuracy_le_one _ _⟩, ?_, ?_⟩
  · unfold evalAccuracyPercent
    have h0 : (0 : ℚ) ≤ batches.foldl (fun s b => s + batchAccuracy b.1 b.2) 0 := hsum.1
    exact mul_nonneg (div_nonneg h0 hlen.le) (by norm_num)
  · unfold evalAccuracyPercent
    have h1 : batches.foldl (fun s b => s + batchAccuracy b.1 b.2) 0 ≤ batches.length := by
      have := hsum.2
      linarith
    have h2 : batches.foldl (fun s b => s + batchAccuracy b.1 b.2) 0 / (batches.length : ℚ)
        ≤ 1 := (div_le_one hlen).mpr h1
    nlinarith

/-- Witness for C5 at the one-batch stream `[([1], [1])]`. -/
theorem c5_accuracy_bounds_witness :
    ([([(1 : ℚ)], [(1 : ℚ)])] : List (List ℚ × List ℚ)) ≠ [] ∧
    ((∀ b ∈ ([([(1 : ℚ)], [(1 : ℚ)])] : List (List ℚ × List ℚ)),
        0 ≤ batchAccuracy b.1 b.2 ∧ batchAccuracy b.1 b.2 ≤ 1) ∧
      0 ≤ evalAccuracyPercent [([(1 : ℚ)], [(1 : ℚ)])] ∧
      evalAccuracyPercent [([(1 : ℚ)], [(1 : ℚ)])] ≤ 100) :=
  ⟨by simp, c5_accuracy_bounds [([(1 : ℚ)], [(1 : ℚ)])] (by simp)⟩

/-! ## Rescaling invariance (C6) -/

theorem roundedPred_mul_pos (c p : ℚ) (hc : 0 < c) : roundedPred (c * p) = roundedPred p := by
  simp only [roundedPred, decide_eq_decide]
  exact mul_nonneg_iff_of_pos_left hc

theorem predMatch_mul_pos (c p t : ℚ) (hc : 0 < c) : predMatch (c * p) t = predMatch p t := by
  unfold predMatch
  rw [roundedPred_mul_pos c p hc]

theorem countP_zip_rescale (c : ℚ) (hc : 0 < c) :
    ∀ preds targets : List ℚ,
      (((preds.map fun p => c * p).zip targets).countP fun pt => predMatch pt.1 pt.2)
        = ((preds.zip targets).countP fun pt => predMatch pt.1 pt.2)
  | [], _ => by simp
  | _ :: _, [] => by simp
  | p :: ps, t :: ts => by
    simp only [List.map_cons, List.zip_cons_cons, List.countP_cons]
    rw [countP_zip_rescale c hc ps ts, predMatch_mul_pos c p t hc]

/-- C6: for a batch of all-identical sequences (hence all-identical logits in
evaluation mode), the accuracy computed by `batchAccuracy` after thresholding
at zero is invariant under rescaling all logits by any positive factor. -/
theorem c6_rescale_invariant (n : ℕ) (x c : ℚ) (targets : List ℚ) (hc : 0 < c) :
    batchAccuracy ((List.replicate n x).map fun p => c * p) targets
      = batchAccuracy (List.replicate n x) targets := by
  unfold batchAccuracy
  rw [countP_zip_rescale c hc, List.length_map]

/-- Witness for C6 at one logit `1`, factor `2`, target `[1]`. -/
theorem c6_rescale_invariant_witness :
    (0 : ℚ) < 2 ∧
      batchAccuracy ((List.replicate 1 (1 : ℚ)).map fun p => 2 * p) [1]
        = batchAccuracy (List.replicate 1 (1 : ℚ)) [1] :=
  ⟨by norm_num, c6_rescale_invariant 1 1 2 [1] (by norm_num)⟩

/-! ## Evaluation is read-only (C9) -/

theorem evalLoop_model_component (fwd : ModelParams → Batch → List ℚ) (m : ModelParams) :
    ∀ (batches : List Batch) (a : ℚ), (batches.foldl (evalStep fwd) (m, a)).1 = m
  | [], _ => rfl
  | b :: bs, a => by
    rw [List.foldl_cons]
    exact evalLoop_model_component fwd m bs _

/-- C9: the evaluation loop leaves every model parameter unchanged — the
embedding table, the recurrent-layer weights and the linear layer are the
same after a full pass over any evaluation batch stream as before it. -/
theorem c9_eval_readonly (fwd : ModelParams → Batch → List ℚ) (m : ModelParams)
    (batches : List Batch) :
    (evalLoop fwd m batches).1 = m ∧
    (evalLoop fwd m batches).1.embedWeight = m.embedWeight ∧
    (evalLoop fwd m batches).1.rnnWeights = m.rnnWeights ∧
    (evalLoop fwd m batches).1.denseWeight = m.denseWeight ∧
    (evalLoop fwd m batches).1.denseBias = m.denseBias := by
  have h : (evalLoop fwd m batches).1 = m := evalLoop_model_component fwd m batches 0
  exact ⟨h, by rw [h], by rw [h], by rw [h], by rw [h]⟩

/-! ## Forward-pass output shape (C7) -/

/-- C7: for every variant and every batch geometry, the forward pass
produces one pre-sigmoid logit per example: output shape `(batch, 1)`; in
particular the classifier input width always matches the linear layer. -/
theorem c7_forward_output_shape (seqLen batch : ℕ) :
    MyRNN.forwardShape (MyRNN.init "RNN") seqLen batch = some [batch, 1] ∧
    MyRNN.forwardShape (MyRNN.init "GRU") seqLen batch = some [batch, 1] ∧
    MyRNN.forwardShape (MyRNN.init "LSTM") seqLen batch = some [batch, 1] ∧
    MyRNN.forwardShape (MyRNN.init "BiLSTM") seqLen batch = some [batch, 1] := by
  refine ⟨?_, ?_, ?_, ?_⟩ <;> rfl

/-! ## Hidden-state selection (C8) -/

/-- C8: the representation fed to the classifier is the single layer's final
hidden state for non-bidirectional variants, and the example-wise
concatenation of the final forward-direction and final backward-direction
hidden states along the feature axis for the bidirectional variant. -/
theorem c8_hidden_selection (h hf hb : List (List ℚ)) :
    hiddenSelect false [h] = h ∧
    hiddenSelect true [hf, hb] = List.zipWith (· ++ ·) hf hb := by
  constructor
  · rfl
  · rfl

/-! ## Reserved embedding rows under training (C2) -/

theorem adamRun_zero_grads_aux (sqrt : ℚ → ℚ) :
    ∀ (grads : List ℚ) (t : ℕ), (∀ g ∈ grads, g = 0) →
      (grads.foldl (fun sθ g => adamStep sqrt sθ.1 sθ.2 g) (⟨0, 0, t⟩, 0)).2 = 0 := by
  intro grads
  induction grads with
  | nil => intro t _; rfl
  | cons g gs ih =>
    intro t h
    have hg : g = 0 := h g (by simp)
    subst hg
    have hstep : adamStep sqrt ⟨0, 0, t⟩ 0 0 = (⟨0, 0, t + 1⟩, 0) := by
      simp [adamStep]
    rw [List.foldl_cons]
    show (gs.foldl (fun sθ g => adamStep sqrt sθ.1 sθ.2 g)
      (adamStep sqrt ⟨0, 0, t⟩ 0 0)).2 = 0
    rw [hstep]
    exact ih (t + 1) fun g hg => h g (by simp [hg])

/-- C2, counterexample to the claim as stated: starting from the zeroed
unknown row (value `0` after loading), a single `optimizer.step()` on a
batch in which token `unk = 0` occurs gives the row a nonzero gradient
(modelled backprop rule) and the adaptive-moment update moves the row away
from zero — so not every optimizer step preserves both reserved rows as
zero. -/
theorem c2_unk_row_update_counterexample :
    embedRowGrad pad [0, 2, 3] [1, 1, 1] unk = 1 ∧
    adamRun Rat.sqrt 0 [embedRowGrad pad [0, 2, 3] [1, 1, 1] unk] ≠ 0 := by
  have hg : embedRowGrad pad [0, 2, 3] [1, 1, 1] unk = 1 := by
    norm_num [embedRowGrad, unk, pad]
  refine ⟨hg, ?_⟩
  rw [hg]
  show (adamStep Rat.sqrt ⟨0, 0, 0⟩ 0 1).2 ≠ 0
  unfold adamStep adamLR adamBeta1 adamBeta2 adamEps
  norm_num

/-- C2, amended: immediately after construction and pretrained-weight
loading both reserved rows are exactly zero whatever the pretrained matrix
held; the padding row's reported gradient is zero for every batch (the
embedding is built with `padding_idx = pad`) and the adaptive-moment
optimizer never moves a zero parameter whose gradients are all zero, so the
padding row stays zero; no such protection exists for the unknown row. -/
theorem c2_amended_reserved_rows (W : List (List ℚ)) (hW : 2 ≤ W.length) (sqrt : ℚ → ℚ) :
    (loadEmbedWeights W).get? unk = some (List.replicate embeddingSize 0) ∧
    (loadEmbedWeights W).get? pad = some (List.replicate embeddingSize 0) ∧
    (∀ tokens upstream, embedRowGrad pad tokens upstream pad = 0) ∧
    (∀ grads : List ℚ, (∀ g ∈ grads, g = 0) → adamRun sqrt 0 grads = 0) := by
  refine ⟨?_, ?_, fun tokens upstream => by simp [embedRowGrad], ?_⟩
  · show ((W.set 0 (List.replicate embeddingSize 0)).set 1
        (List.replicate embeddingSize 0)).get? 0 = some (List.replicate embeddingSize 0)
    rw [List.get?_set_ne _ _ (by decide : (1 : ℕ) ≠ 0),
      List.get?_set_eq_of_lt _ (by omega : 0 < W.length)]
  · show ((W.set 0 (List.replicate embeddingSize 0)).set 1
        (List.replicate embeddingSize 0)).get? 1 = some (List.replicate embeddingSize 0)
    rw [List.get?_set_eq_of_lt _ (by rw [List.length_set]; omega)]
  · intro grads hg
    exact adamRun_zero_grads_aux sqrt grads 0 hg

/-- Witness for C2's amended statement at a concrete 2-row pretrained
matrix and the identity as the backend square root. -/
theorem c2_amended_reserved_rows_witness :
    2 ≤ ([[(2 : ℚ)], [(3 : ℚ)]] : List (List ℚ)).length ∧
    ((loadEmbedWeights [[(2 : ℚ)], [(3 : ℚ)]]).get? unk
        = some (List.replicate embeddingSize 0) ∧
      (loadEmbedWeights [[(2 : ℚ)], [(3 : ℚ)]]).get? pad
        = some (List.replicate embeddingSize 0) ∧
      (∀ tokens upstream, embedRowGrad pad tokens upstream pad = 0) ∧
      (∀ grads : List ℚ, (∀ g ∈ grads, g = 0) →
        adamRun (fun q => q) 0 grads = 0)) :=
  ⟨by simp, c2_amended_reserved_rows [[(2 : ℚ)], [(3 : ℚ)]] (by simp) fun q => q⟩

/-! ## Deterministic training (C4) -/

/-- C4: the training loop reseeds the RNG (`torch.manual_seed(0)`) before
constructing each variant's optimizer, so the epoch loss is a function of
the batch stream, the initial parameters and the per-batch transition alone
— it does not depend on the ambient RNG state, hence repeated runs with the
same fixed seed, the same tiny vocabulary and the same fixed batches
reproduce the identical loss value. -/
theorem c4_training_loss_seed_determined
    (step : RNGState × ModelParams × ℚ → Batch → RNGState × ModelParams × ℚ)
    (m0 : ModelParams) (batches : List Batch) (g1 g2 : RNGState) :
    trainVariant step g1 m0 batches = trainVariant step g2 m0 batches := rfl

end RNNs
